import Mathlib

/-!
Shallow embedding of `Source/Scene/GltfImageCacheResource.js`: a glTF image
cache entry that resolves one image reference (inline buffer view or URI,
with compressed-texture variant fallback) into a decoded payload through an
asynchronous load/unload state machine.

Pure functions of the source (format sniffing, decoder dispatch, source
selection) are translated directly.  The promise-driven lifecycle is embedded
as explicit state passing: each `.then` / `.otherwise` closure of the source
becomes a Lean function on the entry state, and a small labelled transition
system (`step`) schedules those continuations, with the outcomes of the
asynchronous collaborators (buffer-view completion, decode, fetch) chosen by
the environment.
-/

/-- Modelled from the spec: `CacheResourceState` (`Source/Scene/CacheResourceState.js`,
not under `src/`) — "state: one of Unloaded, Loading, Ready, Failed" (§3). -/
inductive CacheResourceState where
  | UNLOADED
  | LOADING
  | READY
  | FAILED
deriving DecidableEq, Repr

/-- Errors carried on rejection paths (`RuntimeError` of `Source/Core/RuntimeError.js`):
only the message is observable here. -/
structure RuntimeError where
  message : String
deriving DecidableEq, Repr

/-- Modelled from the spec: the one-shot deferred of `Source/ThirdParty/when.js`
(not under `src/`) — "`completion`: a single-resolution future … resolved exactly
once … and never re-resolved" (§3), "a single-resolution result channel …
an explicit callback invoked at most once" (§9).  `none` is unsettled; a
settlement attempt on an already settled deferred is a no-op. -/
def settle (d : Option (Except RuntimeError Unit)) (v : Except RuntimeError Unit) :
    Option (Except RuntimeError Unit) :=
  match d with
  | some w => some w
  | none => some v

/-- Modelled from the spec: `CacheResource.getError` (`Source/Scene/CacheResource.js`,
not under `src/`) — failures are "wrapped with a human-readable context message"
(§7): the context message, followed by the underlying error's message when present. -/
def CacheResource.getError (error : Option RuntimeError) (errorMessage : String) :
    RuntimeError :=
  match error with
  | some err => ⟨errorMessage ++ "\n" ++ err.message⟩
  | none => ⟨errorMessage⟩

/-- One compressed-texture variant entry of `extras.compressedImage3DTiles`
(`crunch` / `s3tc` / `pvrtc1` / `etc1`): an optional buffer view and an
optional uri (source lines 75–78, 81–103). -/
structure CompressedVariant where
  bufferView : Option Nat
  uri : Option String
deriving DecidableEq, Repr

/-- The `extras.compressedImage3DTiles` object (source lines 74–78). -/
structure CompressedImage3DTiles where
  crunch : Option CompressedVariant
  s3tc : Option CompressedVariant
  pvrtc1 : Option CompressedVariant
  etc1 : Option CompressedVariant
deriving DecidableEq, Repr

/-- The `extras` object of an image record (source line 68, 74). -/
structure ImageExtras where
  compressedImage3DTiles : Option CompressedImage3DTiles
deriving DecidableEq, Repr

/-- The image record `gltf.images[imageId]` (source lines 67–71). -/
structure ImageRecord where
  bufferView : Option Nat
  uri : Option String
  extras : Option ImageExtras
deriving DecidableEq, Repr

/-- `options.supportedImageFormats` (source lines 48–51). -/
structure SupportedImageFormats where
  webp : Bool
  s3tc : Bool
  pvrtc : Bool
  etc1 : Bool
deriving DecidableEq, Repr

/-- The inner `if` of each selected variant branch (source lines 81–85 and the
three analogous branches): a defined `bufferView` overrides the buffer-view id,
otherwise the variant's `uri` overwrites the uri. -/
def applyVariant (v : CompressedVariant) (bufferViewId : Option Nat)
    (uri : Option String) : Option Nat × Option String :=
  match v.bufferView with
  | some b => (some b, uri)
  | none => (bufferViewId, v.uri)

/-- A guard `supportsX && defined(variant)` of the selection chain: the variant
is a candidate only when its capability flag is set. -/
def variantActive (support : Bool) (v : Option CompressedVariant) :
    Option CompressedVariant :=
  if support then v else none

/-- The `if/else if` chain of source lines 80–104: the first variant, in the
order crunch, s3tc, pvrtc1, etc1, whose capability flag is set and whose entry
is defined.  Note crunch and s3tc are both guarded by `supportsS3tc`. -/
def selectedVariant (f : SupportedImageFormats) (c : CompressedImage3DTiles) :
    Option CompressedVariant :=
  Option.orElse (variantActive f.s3tc c.crunch) fun _ =>
    Option.orElse (variantActive f.s3tc c.s3tc) fun _ =>
      Option.orElse (variantActive f.pvrtc c.pvrtc1) fun _ =>
        variantActive f.etc1 c.etc1

/-- Source-selection part of the constructor (source lines 67–105): start from
the record's `bufferView`/`uri`; when `extras.compressedImage3DTiles` is present
and a supported variant is found, that variant overrides (source lines 74–105). -/
def deriveImageSource (image : ImageRecord) (f : SupportedImageFormats) :
    Option Nat × Option String :=
  match Option.bind image.extras (fun ex => ex.compressedImage3DTiles) with
  | none => (image.bufferView, image.uri)
  | some c =>
    match selectedVariant f c with
    | none => (image.bufferView, image.uri)
    | some v => applyVariant v image.bufferView image.uri

deriving instance DecidableEq for Except

/-- The entry's mutable fields (source lines 107–118).  `gltf` stands for the
retained document reference (`some` = held), `image` for the decoded payload
(abstracted to an identifier), `promise` for the one-shot deferred's state. -/
structure GltfImageCacheResource where
  bufferViewId : Option Nat
  uri : Option String
  bufferViewCacheResource : Option Nat
  image : Option Nat
  gltf : Option Nat
  state : CacheResourceState
  promise : Option (Except RuntimeError Unit)
deriving DecidableEq, Repr

/-- The constructor (source lines 37–118): derive the source, start `UNLOADED`
with an unsettled deferred and no dependent entry or image. -/
def GltfImageCacheResource.construct (image : ImageRecord)
    (f : SupportedImageFormats) : GltfImageCacheResource :=
  { bufferViewId := (deriveImageSource image f).1
    uri := (deriveImageSource image f).2
    bufferViewCacheResource := none
    image := none
    gltf := some 0
    state := CacheResourceState.UNLOADED
    promise := none }

/-- The external resource cache (`options.resourceCache`), abstracted to what
this entry observes: `loadBufferView` hands out fresh entry identifiers
(`nextId` also counts acquisitions) and `unload` (release) calls are logged
in order in `releases`. -/
structure ResourceCache where
  nextId : Nat
  releases : List Nat
deriving DecidableEq, Repr

/-- `resourceCache.loadBufferView` (source lines 183–189): acquire a fresh
dependent buffer-view cache entry. -/
def ResourceCache.loadBufferView (c : ResourceCache) : Nat × ResourceCache :=
  (c.nextId, { c with nextId := c.nextId + 1 })

/-- `resourceCache.unload(entry)` (source line 311): log the release. -/
def ResourceCache.unloadEntry (c : ResourceCache) (id : Nat) : ResourceCache :=
  { c with releases := c.releases ++ [id] }

/-- The module-level `unload` (source lines 307–318): release the dependent
buffer-view entry if present, then clear the dependent entry, the uri, the
image and the document reference.  It does not touch `state` or the promise. -/
def unload (e : GltfImageCacheResource) (c : ResourceCache) :
    GltfImageCacheResource × ResourceCache :=
  let c' :=
    match e.bufferViewCacheResource with
    | some id => c.unloadEntry id
    | none => c
  ({ e with
      bufferViewCacheResource := none
      uri := none
      image := none
      gltf := none }, c')

/-- `GltfImageCacheResource.prototype.unload` (source lines 323–326): the
module-level `unload` followed by `state = UNLOADED`. -/
def prototypeUnload (e : GltfImageCacheResource) (c : ResourceCache) :
    GltfImageCacheResource × ResourceCache :=
  let r := unload e c
  ({ r.1 with state := CacheResourceState.UNLOADED }, r.2)

/-- `handleError` (source lines 173–179): unload, mark `FAILED`, reject the
deferred with the wrapped error. -/
def handleError (e : GltfImageCacheResource) (c : ResourceCache)
    (error : Option RuntimeError) (errorMessage : String) :
    GltfImageCacheResource × ResourceCache :=
  let r := unload e c
  ({ r.1 with
      state := CacheResourceState.FAILED
      promise := settle r.1.promise (Except.error (CacheResource.getError error errorMessage)) },
    r.2)

/-- A pending asynchronous continuation: the suspension points of the source —
waiting on the dependent buffer-view entry's promise (source line 193), on
the inner byte-decode promise (source line 200), or on the URI
fetch-and-decode promise (source line 223, with the closure-captured `uri`
of source lines 218 and 235). -/
inductive Pending where
  | bufferViewWait (id : Nat)
  | decodeWait (id : Nat)
  | fetchWait (uri : Option String)
deriving DecidableEq, Repr

/-- `loadFromBufferView` (source lines 181–192): acquire the dependent
buffer-view entry, record it, set `LOADING`, and suspend on its promise. -/
def loadFromBufferView (e : GltfImageCacheResource) (c : ResourceCache) :
    GltfImageCacheResource × ResourceCache × Pending :=
  let a := c.loadBufferView
  ({ e with
      bufferViewCacheResource := some a.1
      state := CacheResourceState.LOADING },
    a.2, Pending.bufferViewWait a.1)

/-- `loadFromUri` (source lines 216–223): set `LOADING` and suspend on the
fetch-and-decode of the derived resource; the closure captures `uri`. -/
def loadFromUri (e : GltfImageCacheResource) (c : ResourceCache) :
    GltfImageCacheResource × ResourceCache × Pending :=
  ({ e with state := CacheResourceState.LOADING }, c, Pending.fetchWait e.uri)

/-- `GltfImageCacheResource.prototype.load` (source lines 165–171): the
buffer-view branch when `bufferViewId` is defined, the uri branch otherwise. -/
def prototypeLoad (e : GltfImageCacheResource) (c : ResourceCache) :
    GltfImageCacheResource × ResourceCache × Pending :=
  match e.bufferViewId with
  | some _ => loadFromBufferView e c
  | none => loadFromUri e c

/-- The success continuation on the buffer-view promise (source lines
194–200): if the entry was unloaded meanwhile, unload again and stop (no
decode is started); otherwise start the byte decode and suspend on it. -/
def bufferViewThenFulfilled (e : GltfImageCacheResource) (c : ResourceCache)
    (id : Nat) : GltfImageCacheResource × ResourceCache × Option Pending :=
  if e.state = CacheResourceState.UNLOADED then
    let r := unload e c
    (r.1, r.2, none)
  else
    (e, c, some (Pending.decodeWait id))

/-- The success continuation on the byte-decode promise (source lines
200–209): if unloaded meanwhile, unload and discard; otherwise unload
(releasing the dependent entry), store the image, mark `READY`, resolve. -/
def imageThenFulfilled (e : GltfImageCacheResource) (c : ResourceCache)
    (image : Nat) : GltfImageCacheResource × ResourceCache :=
  if e.state = CacheResourceState.UNLOADED then
    unload e c
  else
    let r := unload e c
    ({ r.1 with
        image := some image
        state := CacheResourceState.READY
        promise := settle r.1.promise (Except.ok ()) }, r.2)

/-- The success continuation on the URI fetch-and-decode promise (source
lines 224–233): textually identical to the byte-decode continuation. -/
def loadFromUriThenFulfilled (e : GltfImageCacheResource) (c : ResourceCache)
    (image : Nat) : GltfImageCacheResource × ResourceCache :=
  if e.state = CacheResourceState.UNLOADED then
    unload e c
  else
    let r := unload e c
    ({ r.1 with
        image := some image
        state := CacheResourceState.READY
        promise := settle r.1.promise (Except.ok ()) }, r.2)

/-- The `.otherwise` handler of the buffer-view chain (source lines 211–213):
covers both dependent-entry failure and byte-decode failure. -/
def bufferViewOtherwise (e : GltfImageCacheResource) (c : ResourceCache)
    (error : Option RuntimeError) : GltfImageCacheResource × ResourceCache :=
  handleError e c error "Failed to load embedded image"

/-- JavaScript string coercion of the captured `uri` in
`"Failed to load image:" + uri` (source line 235). -/
def uriToString (uri : Option String) : String :=
  match uri with
  | some s => s
  | none => "undefined"

/-- The `.otherwise` handler of the uri chain (source lines 234–236): the
message carries the closure-captured uri. -/
def loadFromUriOtherwise (e : GltfImageCacheResource) (c : ResourceCache)
    (error : Option RuntimeError) (uri : Option String) :
    GltfImageCacheResource × ResourceCache :=
  handleError e c error ("Failed to load image:" ++ uriToString uri)

/-- `getMimeTypeFromTypedArray` (source lines 239–272): sniff the leading
bytes.  Out-of-range reads are JavaScript `undefined`, which compares unequal
to every byte value; `List.getD _ _ 0` has the same effect since 0 is not
among the compared byte values. -/
def getMimeTypeFromTypedArray (typedArray : List Nat) :
    Except RuntimeError String :=
  if typedArray.getD 0 0 = 0x42 ∧ typedArray.getD 1 0 = 0x49 then
    Except.ok "image/bmp"
  else if typedArray.getD 0 0 = 0x47 ∧ typedArray.getD 1 0 = 0x49 then
    Except.ok "image/gif"
  else if typedArray.getD 0 0 = 0xff ∧ typedArray.getD 1 0 = 0xd8 then
    Except.ok "image/jpeg"
  else if typedArray.getD 0 0 = 0x89 ∧ typedArray.getD 1 0 = 0x50 then
    Except.ok "image/png"
  else if typedArray.getD 0 0 = 0xab ∧ typedArray.getD 1 0 = 0x4b then
    Except.ok "image/ktx"
  else if typedArray.getD 0 0 = 0x48 ∧ typedArray.getD 1 0 = 0x78 then
    Except.ok "image/crn"
  else if typedArray.getD 0 0 = 0x73 ∧ typedArray.getD 1 0 = 0x42 then
    Except.ok "image/basis"
  else if typedArray.getD 0 0 = 0x52 ∧ typedArray.getD 1 0 = 0x49 ∧
      typedArray.getD 2 0 = 0x46 ∧ typedArray.getD 3 0 = 0x46 ∧
      typedArray.getD 8 0 = 0x57 ∧ typedArray.getD 9 0 = 0x45 ∧
      typedArray.getD 10 0 = 0x42 ∧ typedArray.getD 11 0 = 0x50 then
    Except.ok "image/webp"
  else
    Except.error ⟨"Image data does not have valid header"⟩

/-- Which decoder a byte sequence or locator is handed to, with the arguments
the source passes (source lines 274–305): `loadKTX` / `loadCRN` on bytes or
on a resource, `loadImageFromTypedArray` with format tag and `flipY`, or
`resource.fetchImage()`. -/
inductive DecodeRequest where
  | ktxBytes (bytes : List Nat)
  | crnBytes (bytes : List Nat)
  | raster (bytes : List Nat) (format : String) (flipY : Bool)
  | ktxUri (uri : String)
  | crnUri (uri : String)
  | fetchImage (uri : String)
deriving DecidableEq, Repr

/-- `loadImageFromBufferTypedArray` (source lines 274–289): sniff, then
dispatch — KTX and CRN to their compressed-texture decoders, everything else
to `loadImageFromTypedArray` with the sniffed format and `flipY: false`.
A sniffing failure is the thrown `RuntimeError`, which the promise chain
turns into a rejection. -/
def loadImageFromBufferTypedArray (typedArray : List Nat) :
    Except RuntimeError DecodeRequest :=
  match getMimeTypeFromTypedArray typedArray with
  | Except.error e => Except.error e
  | Except.ok mimeType =>
    if mimeType = "image/ktx" then
      Except.ok (DecodeRequest.ktxBytes typedArray)
    else if mimeType = "image/crn" then
      Except.ok (DecodeRequest.crnBytes typedArray)
    else
      Except.ok (DecodeRequest.raster typedArray mimeType false)

/-- The regex `/(^data:image\/ktx)|(\.ktx$)/i` (source line 291): a
case-insensitive (hence the lower-casing of the characters; the pattern is
already lower-case ASCII) `data:image/ktx` scheme anchored at the start, or a
`.ktx` suffix anchored at the end. -/
def ktxRegexTest (uri : String) : Bool :=
  List.isPrefixOf "data:image/ktx".data (uri.data.map Char.toLower) ||
    List.isSuffixOf ".ktx".data (uri.data.map Char.toLower)

/-- The regex `/(^data:image\/crn)|(\.crn$)/i` (source line 292). -/
def crnRegexTest (uri : String) : Bool :=
  List.isPrefixOf "data:image/crn".data (uri.data.map Char.toLower) ||
    List.isSuffixOf ".crn".data (uri.data.map Char.toLower)

/-- `loadImageFromUri` (source lines 294–305), on the derived resource's url:
KTX pattern first, then CRN pattern, else the generic `fetchImage`. -/
def loadImageFromUri (url : String) : DecodeRequest :=
  if ktxRegexTest url then
    DecodeRequest.ktxUri url
  else if crnRegexTest url then
    DecodeRequest.crnUri url
  else
    DecodeRequest.fetchImage url

/-- An externally observable scheduling event: a caller invoking `load` or
`unload`, or the asynchronous runtime settling one of the suspension points
(with an environment-chosen outcome, since the collaborators are black
boxes). -/
inductive Event where
  | load
  | unload
  | depSettled (outcome : Except RuntimeError Unit)
  | decodeSettled (outcome : Except RuntimeError Nat)
  | fetchSettled (outcome : Except RuntimeError Nat)
deriving DecidableEq, Repr

/-- Whether a pending continuation waits on a buffer-view promise. -/
def Pending.isBufferViewWait : Pending → Bool
  | Pending.bufferViewWait _ => true
  | _ => false

/-- Whether a pending continuation waits on a byte-decode promise. -/
def Pending.isDecodeWait : Pending → Bool
  | Pending.decodeWait _ => true
  | _ => false

/-- Whether a pending continuation waits on a URI fetch-and-decode promise. -/
def Pending.isFetchWait : Pending → Bool
  | Pending.fetchWait _ => true
  | _ => false

/-- Remove the first element satisfying `p`, returning it and the rest. -/
def extractFirst (p : Pending → Bool) : List Pending →
    Option (Pending × List Pending)
  | [] => none
  | x :: xs =>
    if p x then some (x, xs)
    else
      match extractFirst p xs with
      | some (y, ys) => some (y, x :: ys)
      | none => none

/-- A configuration of the transition system: the entry, the cache it talks
to, and the continuations currently suspended on unsettled promises. -/
structure Config where
  entry : GltfImageCacheResource
  cache : ResourceCache
  pending : List Pending
deriving DecidableEq, Repr

/-- One scheduling step.  Settlement events resume the first matching
suspended continuation (and are no-ops when none is suspended); success
outcomes run the corresponding `.then` continuation, failure outcomes the
corresponding `.otherwise` handler. -/
def step (cfg : Config) (ev : Event) : Config :=
  match ev with
  | Event.load =>
    let r := prototypeLoad cfg.entry cfg.cache
    ⟨r.1, r.2.1, cfg.pending ++ [r.2.2]⟩
  | Event.unload =>
    let r := prototypeUnload cfg.entry cfg.cache
    ⟨r.1, r.2, cfg.pending⟩
  | Event.depSettled outcome =>
    match extractFirst Pending.isBufferViewWait cfg.pending with
    | none => cfg
    | some (p, rest) =>
      match outcome with
      | Except.ok _ =>
        let id := match p with | Pending.bufferViewWait i => i | _ => 0
        let r := bufferViewThenFulfilled cfg.entry cfg.cache id
        ⟨r.1, r.2.1, rest ++ r.2.2.toList⟩
      | Except.error err =>
        let r := bufferViewOtherwise cfg.entry cfg.cache (some err)
        ⟨r.1, r.2, rest⟩
  | Event.decodeSettled outcome =>
    match extractFirst Pending.isDecodeWait cfg.pending with
    | none => cfg
    | some (_, rest) =>
      match outcome with
      | Except.ok image =>
        let r := imageThenFulfilled cfg.entry cfg.cache image
        ⟨r.1, r.2, rest⟩
      | Except.error err =>
        let r := bufferViewOtherwise cfg.entry cfg.cache (some err)
        ⟨r.1, r.2, rest⟩
  | Event.fetchSettled outcome =>
    match extractFirst Pending.isFetchWait cfg.pending with
    | none => cfg
    | some (p, rest) =>
      let uri := match p with | Pending.fetchWait u => u | _ => none
      match outcome with
      | Except.ok image =>
        let r := loadFromUriThenFulfilled cfg.entry cfg.cache image
        ⟨r.1, r.2, rest⟩
      | Except.error err =>
        let r := loadFromUriOtherwise cfg.entry cfg.cache (some err) uri
        ⟨r.1, r.2, rest⟩

/-- Run a sequence of scheduling events. -/
def run (cfg : Config) (evs : List Event) : Config :=
  evs.foldl step cfg

/-- The configuration right after construction: fresh entry, empty cache log,
nothing suspended. -/
def initConfig (image : ImageRecord) (f : SupportedImageFormats) : Config :=
  ⟨GltfImageCacheResource.construct image f, ⟨0, []⟩, []⟩

/-- An image record carrying all four compressed-variant extension entries,
each with a distinct uri, and no base buffer view. -/
def exampleAllVariants : ImageRecord :=
  ⟨none, some "default.png",
    some ⟨some ⟨some ⟨none, some "a.crn"⟩, some ⟨none, some "b.png"⟩,
      some ⟨none, some "c.png"⟩, some ⟨none, some "d.png"⟩⟩⟩⟩

/-- A capability set reporting s3tc and pvrtc support only. -/
def exampleS3tcPvrtcFormats : SupportedImageFormats := ⟨false, true, true, false⟩

/-- An image record whose base source is a buffer view, with a crunch variant
that supplies only a uri. -/
def exampleBaseBufferViewVariantUri : ImageRecord :=
  ⟨some 5, some "default.png", some ⟨some ⟨some ⟨none, some "a.crn"⟩, none, none, none⟩⟩⟩

/-- A capability set reporting s3tc support only. -/
def exampleS3tcFormats : SupportedImageFormats := ⟨false, true, false, false⟩

/-- A plain uri-sourced image record. -/
def exampleUriImage : ImageRecord := ⟨none, some "t.png", none⟩

/-- A plain buffer-view-sourced image record. -/
def exampleBufferViewImage : ImageRecord := ⟨some 3, none, none⟩

/-- A capability set reporting no compressed-format support. -/
def exampleNoFormats : SupportedImageFormats := ⟨false, false, false, false⟩

/-- An entry in the middle of a uri load with an unsettled promise and a held
dependent buffer-view entry (as after `loadFromBufferView`). -/
def exampleLoadingEntry : GltfImageCacheResource :=
  { bufferViewId := some 3
    uri := some "t.png"
    bufferViewCacheResource := some 0
    image := none
    gltf := some 0
    state := CacheResourceState.LOADING
    promise := none }

theorem settle_some (w v : Except RuntimeError Unit) :
    settle (some w) v = some w := rfl

theorem unload_promise (e : GltfImageCacheResource) (c : ResourceCache) :
    (unload e c).1.promise = e.promise := rfl

theorem unload_state (e : GltfImageCacheResource) (c : ResourceCache) :
    (unload e c).1.state = e.state := rfl

theorem prototypeUnload_promise (e : GltfImageCacheResource) (c : ResourceCache) :
    (prototypeUnload e c).1.promise = e.promise := rfl

theorem prototypeUnload_state (e : GltfImageCacheResource) (c : ResourceCache) :
    (prototypeUnload e c).1.state = CacheResourceState.UNLOADED := rfl

/-- C9: calling `unload()` from any state drives the state to `UNLOADED`,
clears the dependent buffer-view entry (releasing it to the external cache
exactly when one is held), the uri, the decoded image and the document
reference; a second `unload()` is a complete no-op (in particular it releases
nothing, so the external release happens at most once per acquired entry). -/
theorem c9_unload_idempotent_any_state (e : GltfImageCacheResource)
    (c : ResourceCache) :
    (prototypeUnload e c).1.state = CacheResourceState.UNLOADED ∧
    (prototypeUnload e c).1.bufferViewCacheResource = none ∧
    (prototypeUnload e c).1.uri = none ∧
    (prototypeUnload e c).1.image = none ∧
    (prototypeUnload e c).1.gltf = none ∧
    (prototypeUnload e c).2.releases = c.releases ++ e.bufferViewCacheResource.toList ∧
    (prototypeUnload e c).2.nextId = c.nextId ∧
    prototypeUnload (prototypeUnload e c).1 (prototypeUnload e c).2 =
      prototypeUnload e c := by
  obtain ⟨bv, u, bvr, i, g, s, p⟩ := e
  cases bvr <;>
    simp [prototypeUnload, unload, ResourceCache.unloadEntry, Option.toList]

/-- C1: if `unload()` runs (from any state, in particular `LOADING`) before a
pending success continuation resumes, then each success continuation —
the buffer-view one, the byte-decode one and the uri fetch one — observes
`UNLOADED`, stores no decoded image, leaves the completion deferred exactly
as it was (never resolving it), stays `UNLOADED`, and starts no decode. -/
theorem c1_unload_during_load_discards_success (e : GltfImageCacheResource)
    (c : ResourceCache) (id img : Nat) :
    ((bufferViewThenFulfilled (prototypeUnload e c).1 (prototypeUnload e c).2 id).1.promise
        = e.promise ∧
      (bufferViewThenFulfilled (prototypeUnload e c).1 (prototypeUnload e c).2 id).1.image
        = none ∧
      (bufferViewThenFulfilled (prototypeUnload e c).1 (prototypeUnload e c).2 id).1.state
        = CacheResourceState.UNLOADED ∧
      (bufferViewThenFulfilled (prototypeUnload e c).1 (prototypeUnload e c).2 id).2.2
        = none) ∧
    ((imageThenFulfilled (prototypeUnload e c).1 (prototypeUnload e c).2 img).1.promise
        = e.promise ∧
      (imageThenFulfilled (prototypeUnload e c).1 (prototypeUnload e c).2 img).1.image
        = none ∧
      (imageThenFulfilled (prototypeUnload e c).1 (prototypeUnload e c).2 img).1.state
        = CacheResourceState.UNLOADED) ∧
    ((loadFromUriThenFulfilled (prototypeUnload e c).1 (prototypeUnload e c).2 img).1.promise
        = e.promise ∧
      (loadFromUriThenFulfilled (prototypeUnload e c).1 (prototypeUnload e c).2 img).1.image
        = none ∧
      (loadFromUriThenFulfilled (prototypeUnload e c).1 (prototypeUnload e c).2 img).1.state
        = CacheResourceState.UNLOADED) := by
  obtain ⟨bv, u, bvr, i, g, s, p⟩ := e
  cases bvr <;>
    simp [prototypeUnload, unload, bufferViewThenFulfilled, imageThenFulfilled,
      loadFromUriThenFulfilled, ResourceCache.unloadEntry]

/-- C10: the failure handlers are not guarded by the unloaded-discard check:
after `unload()` has run, a failing buffer-view/decode step or uri fetch still
drives the state to `FAILED` (overriding `UNLOADED`) and, when the deferred is
unsettled, rejects it with the wrapped error. -/
theorem c10_failure_handler_overrides_unload (e : GltfImageCacheResource)
    (c : ResourceCache) (err : Option RuntimeError) (u : Option String) :
    (bufferViewOtherwise (prototypeUnload e c).1 (prototypeUnload e c).2 err).1.state
      = CacheResourceState.FAILED ∧
    (loadFromUriOtherwise (prototypeUnload e c).1 (prototypeUnload e c).2 err u).1.state
      = CacheResourceState.FAILED ∧
    (e.promise = none →
      (bufferViewOtherwise (prototypeUnload e c).1 (prototypeUnload e c).2 err).1.promise
        = some (Except.error (CacheResource.getError err "Failed to load embedded image"))) ∧
    (e.promise = none →
      (loadFromUriOtherwise (prototypeUnload e c).1 (prototypeUnload e c).2 err u).1.promise
        = some (Except.error
            (CacheResource.getError err ("Failed to load image:" ++ uriToString u)))) := by
  obtain ⟨bv, uu, bvr, i, g, s, p⟩ := e
  cases bvr <;> cases p <;>
    simp [prototypeUnload, unload, bufferViewOtherwise, loadFromUriOtherwise,
      handleError, settle, ResourceCache.unloadEntry]

theorem c10_failure_handler_overrides_unload_witness :
    (bufferViewOtherwise (prototypeUnload exampleLoadingEntry ⟨1, []⟩).1
        (prototypeUnload exampleLoadingEntry ⟨1, []⟩).2 none).1.state
      = CacheResourceState.FAILED ∧
    (bufferViewOtherwise (prototypeUnload exampleLoadingEntry ⟨1, []⟩).1
        (prototypeUnload exampleLoadingEntry ⟨1, []⟩).2 none).1.promise
      = some (Except.error
          (CacheResource.getError none "Failed to load embedded image")) :=
  ⟨(c10_failure_handler_overrides_unload exampleLoadingEntry ⟨1, []⟩ none none).1,
    (c10_failure_handler_overrides_unload exampleLoadingEntry ⟨1, []⟩ none none).2.2.1 rfl⟩

/-- C3: `handleError` first performs the full cleanup of `unload` (releasing
the held dependent buffer-view entry, clearing the dependent entry, the uri,
the decoded image and the document reference), then marks `FAILED` and then
settles the deferred with the wrapped error — actually rejecting it whenever
it was unsettled; and the uri-path failure message contains the offending
uri as a substring. -/
theorem c3_failure_cleanup_then_failed_then_reject (e : GltfImageCacheResource)
    (c : ResourceCache) (err : Option RuntimeError) (msg : String) (u : String) :
    (handleError e c err msg).1.bufferViewCacheResource = none ∧
    (handleError e c err msg).1.uri = none ∧
    (handleError e c err msg).1.image = none ∧
    (handleError e c err msg).1.gltf = none ∧
    (handleError e c err msg).2.releases = c.releases ++ e.bufferViewCacheResource.toList ∧
    (handleError e c err msg).1.state = CacheResourceState.FAILED ∧
    (handleError e c err msg).1.promise
      = settle e.promise (Except.error (CacheResource.getError err msg)) ∧
    (e.promise = none →
      (handleError e c err msg).1.promise
        = some (Except.error (CacheResource.getError err msg))) ∧
    List.IsInfix u.data
      (CacheResource.getError err ("Failed to load image:" ++ uriToString (some u))).message.data := by
  have hinf : List.IsInfix u.data
      (CacheResource.getError err
        ("Failed to load image:" ++ uriToString (some u))).message.data := by
    cases err with
    | none =>
      refine ⟨"Failed to load image:".data, [], ?_⟩
      simp [CacheResource.getError, uriToString, String.data_append]
    | some er =>
      refine ⟨"Failed to load image:".data, ("\n" ++ er.message).data, ?_⟩
      simp [CacheResource.getError, uriToString, String.data_append]
  obtain ⟨bv, uu, bvr, i, g, s, p⟩ := e
  cases bvr <;> cases p <;>
    simp [handleError, unload, settle, ResourceCache.unloadEntry,
      Option.toList, hinf]

theorem c3_failure_cleanup_then_failed_then_reject_witness :
    (handleError exampleLoadingEntry ⟨1, []⟩ none "Failed to load embedded image").1.state
      = CacheResourceState.FAILED ∧
    (handleError exampleLoadingEntry ⟨1, []⟩ none "Failed to load embedded image").1.promise
      = some (Except.error (CacheResource.getError none "Failed to load embedded image")) ∧
    List.IsInfix "t.png".data
      (CacheResource.getError none
        ("Failed to load image:" ++ uriToString (some "t.png"))).message.data :=
  ⟨(c3_failure_cleanup_then_failed_then_reject exampleLoadingEntry ⟨1, []⟩ none
      "Failed to load embedded image" "t.png").2.2.2.2.2.1,
    (c3_failure_cleanup_then_failed_then_reject exampleLoadingEntry ⟨1, []⟩ none
      "Failed to load embedded image" "t.png").2.2.2.2.2.2.2.1 rfl,
    (c3_failure_cleanup_then_failed_then_reject exampleLoadingEntry ⟨1, []⟩ none
      "Failed to load embedded image" "t.png").2.2.2.2.2.2.2.2⟩

theorem step_preserves_settled (cfg : Config) (ev : Event)
    (s : Except RuntimeError Unit) (h : cfg.entry.promise = some s) :
    (step cfg ev).entry.promise = some s := by
  cases ev with
  | load =>
    cases hb : cfg.entry.bufferViewId <;>
      simp [step, prototypeLoad, loadFromBufferView, loadFromUri,
        ResourceCache.loadBufferView, hb, h]
  | unload => simp [step, prototypeUnload, unload, h]
  | depSettled outcome =>
    cases hx : extractFirst Pending.isBufferViewWait cfg.pending with
    | none => simp [step, hx, h]
    | some pr =>
      cases outcome with
      | ok v =>
        by_cases hs : cfg.entry.state = CacheResourceState.UNLOADED <;>
          simp [step, hx, bufferViewThenFulfilled, unload, hs, h]
      | error err =>
        simp [step, hx, bufferViewOtherwise, handleError, unload, settle, h]
  | decodeSettled outcome =>
    cases hx : extractFirst Pending.isDecodeWait cfg.pending with
    | none => simp [step, hx, h]
    | some pr =>
      cases outcome with
      | ok v =>
        by_cases hs : cfg.entry.state = CacheResourceState.UNLOADED <;>
          simp [step, hx, imageThenFulfilled, unload, settle, hs, h]
      | error err =>
        simp [step, hx, bufferViewOtherwise, handleError, unload, settle, h]
  | fetchSettled outcome =>
    cases hx : extractFirst Pending.isFetchWait cfg.pending with
    | none => simp [step, hx, h]
    | some pr =>
      cases outcome with
      | ok v =>
        by_cases hs : cfg.entry.state = CacheResourceState.UNLOADED <;>
          simp [step, hx, loadFromUriThenFulfilled, unload, settle, hs, h]
      | error err =>
        simp [step, hx, loadFromUriOtherwise, handleError, unload, settle, h]

theorem run_preserves_settled (cfg : Config) (evs : List Event)
    (s : Except RuntimeError Unit) (h : cfg.entry.promise = some s) :
    (run cfg evs).entry.promise = some s := by
  induction evs generalizing cfg with
  | nil => simpa [run] using h
  | cons ev rest ih =>
    rw [run, List.foldl_cons]
    exact ih (step cfg ev) (step_preserves_settled cfg ev s h)

/-- C2: over every sequence of `load()`, `unload()` and continuation
resumptions, the completion deferred is settled at most once: once it holds a
settlement `s` after some events, it still holds exactly `s` after any further
events — later settlement attempts (which only ever go through `settle`) are
no-ops. -/
theorem c2_completion_settles_at_most_once (image : ImageRecord)
    (f : SupportedImageFormats) (evs evs' : List Event)
    (s : Except RuntimeError Unit)
    (h : (run (initConfig image f) evs).entry.promise = some s) :
    (run (initConfig image f) (evs ++ evs')).entry.promise = some s := by
  rw [run, List.foldl_append]
  exact run_preserves_settled _ evs' s h

theorem c2_completion_settles_at_most_once_witness :
    (run (initConfig exampleUriImage exampleNoFormats)
        [Event.load, Event.fetchSettled (Except.ok 7)]).entry.promise
      = some (Except.ok ()) ∧
    (run (initConfig exampleUriImage exampleNoFormats)
        ([Event.load, Event.fetchSettled (Except.ok 7)] ++
          [Event.unload, Event.load, Event.fetchSettled (Except.ok 9),
            Event.fetchSettled (Except.error ⟨"late"⟩)])).entry.promise
      = some (Except.ok ()) :=
  ⟨by decide,
    c2_completion_settles_at_most_once exampleUriImage exampleNoFormats
      [Event.load, Event.fetchSettled (Except.ok 7)]
      [Event.unload, Event.load, Event.fetchSettled (Except.ok 9),
        Event.fetchSettled (Except.error ⟨"late"⟩)]
      (Except.ok ()) (by decide)⟩

theorem c4_counterexample_crunch_shares_s3tc_flag :
    deriveImageSource exampleAllVariants exampleS3tcPvrtcFormats
      = (none, some "a.crn") ∧
    deriveImageSource exampleAllVariants exampleS3tcPvrtcFormats
      ≠ (none, some "b.png") := by
  constructor
  · rfl
  · decide

/-- C4 (amended): with s3tc support reported, a present crunch entry
(variant-A) is always selected first — crunch shares variant-B's s3tc
capability flag, so a capability set supporting variant-B necessarily
supports variant-A and, with all four variants present, variant-A's
uri/bufferRegionId is derived; variant-B's source is selected only when the
crunch entry is absent. -/
theorem c4_amended_first_supported_variant (image : ImageRecord)
    (f : SupportedImageFormats) (ex : ImageExtras)
    (cc : CompressedImage3DTiles)
    (hex : image.extras = some ex) (hc : ex.compressedImage3DTiles = some cc)
    (hs : f.s3tc = true) :
    (∀ v, cc.crunch = some v →
      deriveImageSource image f = applyVariant v image.bufferView image.uri) ∧
    (∀ w, cc.crunch = none → cc.s3tc = some w →
      deriveImageSource image f = applyVariant w image.bufferView image.uri) := by
  constructor
  · intro v hv
    simp [deriveImageSource, hex, hc, selectedVariant, variantActive, hs, hv,
      Option.orElse]
  · intro w hv hw
    simp [deriveImageSource, hex, hc, selectedVariant, variantActive, hs, hv,
      hw, Option.orElse]

theorem c4_amended_first_supported_variant_witness :
    deriveImageSource exampleAllVariants exampleS3tcPvrtcFormats
      = applyVariant ⟨none, some "a.crn"⟩ none (some "default.png") :=
  (c4_amended_first_supported_variant exampleAllVariants exampleS3tcPvrtcFormats
      ⟨some ⟨some ⟨none, some "a.crn"⟩, some ⟨none, some "b.png"⟩,
        some ⟨none, some "c.png"⟩, some ⟨none, some "d.png"⟩⟩⟩
      ⟨some ⟨none, some "a.crn"⟩, some ⟨none, some "b.png"⟩,
        some ⟨none, some "c.png"⟩, some ⟨none, some "d.png"⟩⟩
      rfl rfl rfl).1 ⟨none, some "a.crn"⟩ rfl

theorem c5_counterexample_buffer_view_wins :
    (GltfImageCacheResource.construct exampleBaseBufferViewVariantUri
        exampleS3tcFormats).uri = some "a.crn" ∧
    (GltfImageCacheResource.construct exampleBaseBufferViewVariantUri
        exampleS3tcFormats).bufferViewId = some 5 ∧
    (prototypeLoad (GltfImageCacheResource.construct exampleBaseBufferViewVariantUri
        exampleS3tcFormats) ⟨0, []⟩).2.2 = Pending.bufferViewWait 0 ∧
    (prototypeLoad (GltfImageCacheResource.construct exampleBaseBufferViewVariantUri
        exampleS3tcFormats) ⟨0, []⟩).2.2 ≠ Pending.fetchWait (some "a.crn") := by
  refine ⟨rfl, rfl, rfl, ?_⟩
  decide

/-- C5 (amended): a selected variant overrides only the field it supplies
(a defined variant `bufferView` replaces the buffer-view id and leaves the
uri, otherwise the variant's uri replaces the uri and leaves the buffer-view
id), and exactly one source drives `load()`: the buffer-view branch whenever
`bufferViewId` is defined — even one left over from the base record when the
variant supplied a uri — and the uri branch only when it is not. -/
theorem c5_amended_single_driving_source (e : GltfImageCacheResource)
    (c : ResourceCache) :
    (∀ id, e.bufferViewId = some id →
      (prototypeLoad e c).2.2 = Pending.bufferViewWait c.nextId) ∧
    (e.bufferViewId = none →
      (prototypeLoad e c).2.2 = Pending.fetchWait e.uri) ∧
    (∀ v bv u b, v.bufferView = some b → applyVariant v bv u = (some b, u)) ∧
    (∀ v bv u, v.bufferView = none → applyVariant v bv u = (bv, v.uri)) := by
  refine ⟨?_, ?_, ?_, ?_⟩
  · intro id hid
    simp [prototypeLoad, hid, loadFromBufferView, ResourceCache.loadBufferView]
  · intro hid
    simp [prototypeLoad, hid, loadFromUri]
  · intro v bv u b hb
    simp [applyVariant, hb]
  · intro v bv u hb
    simp [applyVariant, hb]

theorem c5_amended_single_driving_source_witness :
    (prototypeLoad (GltfImageCacheResource.construct exampleBaseBufferViewVariantUri
        exampleS3tcFormats) ⟨0, []⟩).2.2 = Pending.bufferViewWait 0 ∧
    applyVariant ⟨none, some "a.crn"⟩ (some 5) (some "default.png")
      = (some 5, some "a.crn") :=
  ⟨(c5_amended_single_driving_source
      (GltfImageCacheResource.construct exampleBaseBufferViewVariantUri
        exampleS3tcFormats) ⟨0, []⟩).1 5 rfl,
    (c5_amended_single_driving_source
      (GltfImageCacheResource.construct exampleBaseBufferViewVariantUri
        exampleS3tcFormats) ⟨0, []⟩).2.2.2 ⟨none, some "a.crn"⟩ (some 5)
      (some "default.png") rfl⟩

/-- C6: for every byte sequence of at least 12 bytes, sniffing returns BMP
for leading bytes 0x42 0x49, GIF for 0x47 0x49, JPEG for 0xFF 0xD8, PNG for
0x89 0x50, KTX for 0xAB 0x4B, CRN for 0x48 0x78, Basis for 0x73 0x42, WebP
for RIFF….WEBP, and otherwise fails with the invalid-header error. -/
theorem c6_mime_sniffing_table (b : List Nat) (h : 12 ≤ b.length) :
    (b.getD 0 0 = 0x42 ∧ b.getD 1 0 = 0x49 →
      getMimeTypeFromTypedArray b = Except.ok "image/bmp") ∧
    (b.getD 0 0 = 0x47 ∧ b.getD 1 0 = 0x49 →
      getMimeTypeFromTypedArray b = Except.ok "image/gif") ∧
    (b.getD 0 0 = 0xff ∧ b.getD 1 0 = 0xd8 →
      getMimeTypeFromTypedArray b = Except.ok "image/jpeg") ∧
    (b.getD 0 0 = 0x89 ∧ b.getD 1 0 = 0x50 →
      getMimeTypeFromTypedArray b = Except.ok "image/png") ∧
    (b.getD 0 0 = 0xab ∧ b.getD 1 0 = 0x4b →
      getMimeTypeFromTypedArray b = Except.ok "image/ktx") ∧
    (b.getD 0 0 = 0x48 ∧ b.getD 1 0 = 0x78 →
      getMimeTypeFromTypedArray b = Except.ok "image/crn") ∧
    (b.getD 0 0 = 0x73 ∧ b.getD 1 0 = 0x42 →
      getMimeTypeFromTypedArray b = Except.ok "image/basis") ∧
    (b.getD 0 0 = 0x52 ∧ b.getD 1 0 = 0x49 ∧ b.getD 2 0 = 0x46 ∧
        b.getD 3 0 = 0x46 ∧ b.getD 8 0 = 0x57 ∧ b.getD 9 0 = 0x45 ∧
        b.getD 10 0 = 0x42 ∧ b.getD 11 0 = 0x50 →
      getMimeTypeFromTypedArray b = Except.ok "image/webp") ∧
    (¬(b.getD 0 0 = 0x42 ∧ b.getD 1 0 = 0x49) →
      ¬(b.getD 0 0 = 0x47 ∧ b.getD 1 0 = 0x49) →
      ¬(b.getD 0 0 = 0xff ∧ b.getD 1 0 = 0xd8) →
      ¬(b.getD 0 0 = 0x89 ∧ b.getD 1 0 = 0x50) →
      ¬(b.getD 0 0 = 0xab ∧ b.getD 1 0 = 0x4b) →
      ¬(b.getD 0 0 = 0x48 ∧ b.getD 1 0 = 0x78) →
      ¬(b.getD 0 0 = 0x73 ∧ b.getD 1 0 = 0x42) →
      ¬(b.getD 0 0 = 0x52 ∧ b.getD 1 0 = 0x49 ∧ b.getD 2 0 = 0x46 ∧
          b.getD 3 0 = 0x46 ∧ b.getD 8 0 = 0x57 ∧ b.getD 9 0 = 0x45 ∧
          b.getD 10 0 = 0x42 ∧ b.getD 11 0 = 0x50) →
      getMimeTypeFromTypedArray b
        = Except.error ⟨"Image data does not have valid header"⟩) := by
  refine ⟨?_, ?_, ?_, ?_, ?_, ?_, ?_, ?_, ?_⟩
  · rintro ⟨h0, h1⟩
    simp only [getMimeTypeFromTypedArray, h0, h1]
    norm_num
  · rintro ⟨h0, h1⟩
    simp only [getMimeTypeFromTypedArray, h0, h1]
    norm_num
  · rintro ⟨h0, h1⟩
    simp only [getMimeTypeFromTypedArray, h0, h1]
    norm_num
  · rintro ⟨h0, h1⟩
    simp only [getMimeTypeFromTypedArray, h0, h1]
    norm_num
  · rintro ⟨h0, h1⟩
    simp only [getMimeTypeFromTypedArray, h0, h1]
    norm_num
  · rintro ⟨h0, h1⟩
    simp only [getMimeTypeFromTypedArray, h0, h1]
    norm_num
  · rintro ⟨h0, h1⟩
    simp only [getMimeTypeFromTypedArray, h0, h1]
    norm_num
  · rintro ⟨h0, h1, h2, h3, h8, h9, h10, h11⟩
    simp only [getMimeTypeFromTypedArray, h0, h1, h2, h3, h8, h9, h10, h11]
    norm_num
  · intro n1 n2 n3 n4 n5 n6 n7 n8
    simp only [getMimeTypeFromTypedArray]
    rw [if_neg n1, if_neg n2, if_neg n3, if_neg n4, if_neg n5, if_neg n6,
      if_neg n7, if_neg n8]

theorem c6_mime_sniffing_table_witness :
    getMimeTypeFromTypedArray [0x89, 0x50, 0, 0, 0, 0, 0, 0, 0, 0, 0, 0]
      = Except.ok "image/png" ∧
    getMimeTypeFromTypedArray
        [0x52, 0x49, 0x46, 0x46, 0, 0, 0, 0, 0x57, 0x45, 0x42, 0x50]
      = Except.ok "image/webp" ∧
    getMimeTypeFromTypedArray [1, 2, 3, 4, 5, 6, 7, 8, 9, 10, 11, 12]
      = Except.error ⟨"Image data does not have valid header"⟩ :=
  ⟨(c6_mime_sniffing_table [0x89, 0x50, 0, 0, 0, 0, 0, 0, 0, 0, 0, 0]
      (by decide)).2.2.2.1 (by decide),
    (c6_mime_sniffing_table
      [0x52, 0x49, 0x46, 0x46, 0, 0, 0, 0, 0x57, 0x45, 0x42, 0x50]
      (by decide)).2.2.2.2.2.2.2.1 (by decide),
    (c6_mime_sniffing_table [1, 2, 3, 4, 5, 6, 7, 8, 9, 10, 11, 12]
      (by decide)).2.2.2.2.2.2.2.2 (by decide) (by decide) (by decide)
      (by decide) (by decide) (by decide) (by decide) (by decide)⟩

/-- C7: on the inline path, a KTX-sniffed byte sequence is dispatched to the
KTX compressed-texture decoder, a CRN-sniffed one to the CRN decoder, and
every other recognized type to the generic raster decoder with the sniffed
format tag and `flipY = false`. -/
theorem c7_buffer_decoder_dispatch (t : List Nat) :
    (getMimeTypeFromTypedArray t = Except.ok "image/ktx" →
      loadImageFromBufferTypedArray t = Except.ok (DecodeRequest.ktxBytes t)) ∧
    (getMimeTypeFromTypedArray t = Except.ok "image/crn" →
      loadImageFromBufferTypedArray t = Except.ok (DecodeRequest.crnBytes t)) ∧
    (∀ m, getMimeTypeFromTypedArray t = Except.ok m → m ≠ "image/ktx" →
      m ≠ "image/crn" →
      loadImageFromBufferTypedArray t
        = Except.ok (DecodeRequest.raster t m false)) := by
  refine ⟨?_, ?_, ?_⟩
  · intro hm
    simp [loadImageFromBufferTypedArray, hm]
  · intro hm
    simp [loadImageFromBufferTypedArray, hm]
  · intro m hm hk hc
    simp [loadImageFromBufferTypedArray, hm, hk, hc]

theorem c7_buffer_decoder_dispatch_witness :
    loadImageFromBufferTypedArray [0xab, 0x4b, 0, 0, 0, 0, 0, 0, 0, 0, 0, 0]
      = Except.ok (DecodeRequest.ktxBytes
          [0xab, 0x4b, 0, 0, 0, 0, 0, 0, 0, 0, 0, 0]) ∧
    loadImageFromBufferTypedArray [0x48, 0x78, 0, 0, 0, 0, 0, 0, 0, 0, 0, 0]
      = Except.ok (DecodeRequest.crnBytes
          [0x48, 0x78, 0, 0, 0, 0, 0, 0, 0, 0, 0, 0]) ∧
    loadImageFromBufferTypedArray [0x89, 0x50, 0, 0, 0, 0, 0, 0, 0, 0, 0, 0]
      = Except.ok (DecodeRequest.raster
          [0x89, 0x50, 0, 0, 0, 0, 0, 0, 0, 0, 0, 0] "image/png" false) :=
  ⟨(c7_buffer_decoder_dispatch [0xab, 0x4b, 0, 0, 0, 0, 0, 0, 0, 0, 0, 0]).1
      (by decide),
    (c7_buffer_decoder_dispatch [0x48, 0x78, 0, 0, 0, 0, 0, 0, 0, 0, 0, 0]).2.1
      (by decide),
    (c7_buffer_decoder_dispatch [0x89, 0x50, 0, 0, 0, 0, 0, 0, 0, 0, 0, 0]).2.2
      "image/png" (by decide) (by decide) (by decide)⟩

/-- C8: for uri-sourced loads, dispatch is by case-insensitive pattern
matching on the locator: a `data:image/ktx` scheme prefix or `.ktx` suffix
goes to the KTX decoder; failing that, a `data:image/crn` prefix or `.crn`
suffix goes to the CRN decoder; every other locator goes to the generic
image fetch-and-decode. -/
theorem c8_uri_decoder_dispatch (url : String) :
    (List.IsPrefix "data:image/ktx".data (url.data.map Char.toLower) ∨
        List.IsSuffix ".ktx".data (url.data.map Char.toLower) →
      loadImageFromUri url = DecodeRequest.ktxUri url) ∧
    (ktxRegexTest url = false →
      List.IsPrefix "data:image/crn".data (url.data.map Char.toLower) ∨
        List.IsSuffix ".crn".data (url.data.map Char.toLower) →
      loadImageFromUri url = DecodeRequest.crnUri url) ∧
    (ktxRegexTest url = false → crnRegexTest url = false →
      loadImageFromUri url = DecodeRequest.fetchImage url) := by
  refine ⟨?_, ?_, ?_⟩
  · intro hk
    rcases hk with hk | hk
    · rw [← List.isPrefixOf_iff_prefix] at hk
      simp [loadImageFromUri, ktxRegexTest, hk]
    · rw [← List.isSuffixOf_iff_suffix] at hk
      simp [loadImageFromUri, ktxRegexTest, hk]
  · intro hnk hc
    rcases hc with hc | hc
    · rw [← List.isPrefixOf_iff_prefix] at hc
      simp [loadImageFromUri, crnRegexTest, hnk, hc]
    · rw [← List.isSuffixOf_iff_suffix] at hc
      simp [loadImageFromUri, crnRegexTest, hnk, hc]
  · intro hnk hnc
    simp [loadImageFromUri, hnk, hnc]

theorem c8_uri_decoder_dispatch_witness :
    loadImageFromUri "texture.ktx" = DecodeRequest.ktxUri "texture.ktx" ∧
    loadImageFromUri "data:image/ktx;base64,AAAA"
      = DecodeRequest.ktxUri "data:image/ktx;base64,AAAA" ∧
    loadImageFromUri "texture.crn" = DecodeRequest.crnUri "texture.crn" ∧
    loadImageFromUri "texture.png" = DecodeRequest.fetchImage "texture.png" :=
  ⟨(c8_uri_decoder_dispatch "texture.ktx").1
      (Or.inr (by rw [← List.isSuffixOf_iff_suffix]; decide)),
    (c8_uri_decoder_dispatch "data:image/ktx;base64,AAAA").1
      (Or.inl (by rw [← List.isPrefixOf_iff_prefix]; decide)),
    (c8_uri_decoder_dispatch "texture.crn").2.1 (by decide)
      (Or.inr (by rw [← List.isSuffixOf_iff_suffix]; decide)),
    (c8_uri_decoder_dispatch "texture.png").2.2 (by decide) (by decide)⟩
